import Mathlib

/-!
Shallow embedding of the git post-receive build-and-deploy hook
(`scripts/build-and-deploy.py`): push-ref parsing and tag computation,
build-descriptor loading with gitolite overrides, the podman engine wrapper,
and the per-ref build orchestration with its cleanup semantics.

External effects are made explicit:
  * every `podman` invocation is recorded as a trace event and its
    success or failure is decided by an oracle `ok : List String → Bool`
    supplied as a parameter (the container engine is an external process);
  * the result of `git show rev:.oci-build.json` is an input
    (`Option RawDescriptor`, `none` meaning the file is absent at that
    revision, which the code observes as `GitCommandError`); JSON decoding
    of a present descriptor is modelled as already performed;
  * the gitolite per-repo options are inputs (`Option String`, `none`
    meaning `git config` fails because the key is unset);
  * the filesystem effects of `checkout` and `read_build_args` are not
    modelled; the `package.json` version that `read_build_args` would find
    is an input (`Option String`).

Python exceptions are modelled with `Except PyErr`; `sys.exit(1)` is the
`systemExit` error, and uncaught exceptions terminate the interpreter with
exit status 1 (see `processExitCode`).
-/

/-- Python exceptions that the hook can raise or observe. -/
inductive PyErr where
  /-- Python `subprocess.CalledProcessError` from a failed `podman` invocation;
  carries the argument list of the failed command. -/
  | calledProcessError (args : List String)
  /-- Python `RuntimeError` raised by `resolve_contexts` for an ordering violation. -/
  | runtimeError (msg : String)
  /-- Python `SystemExit` raised by `sys.exit(code)`. -/
  | systemExit (code : Nat)
  /-- Python `KeyError` from a required dict lookup (e.g. `raw["registry"]`). -/
  | keyError (key : String)
deriving Repr, DecidableEq

/-- Exit status of the interpreter given how `main` ended: normal return
is 0, `sys.exit(code)` is `code`, and any other uncaught exception makes
the interpreter print a traceback and exit with status 1. -/
def processExitCode : Except PyErr Unit → Nat
  | .ok _ => 0
  | .error (.systemExit c) => c
  | .error _ => 1

/-!
String operations are modelled on the character list (`String.data`) with
structural recursion, matching the codepoint semantics of the Python
string methods they embed.
-/

/-- Python `s.startswith(p)`: prefix test on the character list. -/
def strStarts (s p : String) : Bool := p.data.isPrefixOf s.data

/-- Python `s[:n]`: take the first `n` codepoints. -/
def strTake (s : String) (n : Nat) : String := String.mk (s.data.take n)

/-- Python `s.strip()`: drop whitespace from both ends. -/
def strTrim (s : String) : String :=
  String.mk (((s.data.dropWhile Char.isWhitespace).reverse.dropWhile
    Char.isWhitespace).reverse)

/-- Helper of `pySplit`: walk the characters, accumulating the current
token in reverse; whitespace ends a token, empty tokens are discarded. -/
def splitWsAux : List Char → List Char → List String
  | [], acc => if acc = [] then [] else [String.mk acc.reverse]
  | c :: cs, acc =>
    if c.isWhitespace then
      if acc = [] then splitWsAux cs []
      else String.mk acc.reverse :: splitWsAux cs []
    else splitWsAux cs (c :: acc)

/-- Python `str.split()` with no separator: split on whitespace runs,
discarding empty pieces (leading and trailing whitespace is ignored, which
also makes the preceding `.strip()` in the source redundant). -/
def pySplit (s : String) : List String := splitWsAux s.data []

/-- Python `str.removeprefix`: drop `p` when `s` starts with it, else `s`. -/
def removePre (s p : String) : String :=
  if strStarts s p then String.mk (s.data.drop p.data.length) else s

/-- Python `pat in s`: substring containment test. -/
def pyIn (pat s : String) : Bool :=
  (List.range (s.data.length + 1)).any (fun i => pat.data.isPrefixOf (s.data.drop i))

/-- Python `" ".join`-style separator join, used to render a command. -/
def joinSep (sep : String) : List String → String
  | [] => ""
  | [x] => x
  | x :: xs => x ++ sep ++ joinSep sep xs

-- ─── PushRef: one "old-sha new-sha refname" line ────────────────────────────

/-- A single ref update received by the post-receive hook. -/
structure PushRef where
  old_rev : String
  new_rev : String
  refname : String
deriving Repr, DecidableEq

/-- Model of `new_rev[:7]`. -/
def PushRef.short_sha (r : PushRef) : String := strTake r.new_rev 7

/-- Model of `new_rev == "0" * 40`: the all-zero delete sentinel. -/
def PushRef.is_delete (r : PushRef) : Bool :=
  r.new_rev == "0000000000000000000000000000000000000000"

/-- Model of `refname.startswith("refs/tags/")`. -/
def PushRef.is_tag (r : PushRef) : Bool := strStarts r.refname "refs/tags/"

/-- Model of `refname.removeprefix("refs/tags/")`. -/
def PushRef.tag (r : PushRef) : String := removePre r.refname "refs/tags/"

/-- Model of `refname.removeprefix("refs/heads/").replace("/", "-")`: the pattern
is a single character, so the occurrence replacement is the pointwise map
over codepoints. -/
def PushRef.branch (r : PushRef) : String :=
  String.mk ((removePre r.refname "refs/heads/").data.map
    (fun c => if c = '/' then '-' else c))

/-- Release tag: a tag whose name starts with "v" and has no "-rc" marker. -/
def PushRef.is_release (r : PushRef) : Bool :=
  r.is_tag && strStarts r.tag "v" && !(pyIn "-rc" r.tag)

/-- Release-candidate tag: a tag whose name contains "-rc". -/
def PushRef.is_rc (r : PushRef) : Bool :=
  r.is_tag && pyIn "-rc" r.tag

/-- Compute the image tags for this ref: always the short-SHA tag first,
then (version, latest) for a release tag, (version, next) for an RC tag,
or (sanitized branch, edge) for a branch push. -/
def PushRef.image_tags (r : PushRef) (base : String) (suffix : String := "") :
    List String :=
  let full_base := base ++ suffix
  (full_base ++ ":" ++ r.short_sha) ::
    (if r.is_release then
      [full_base ++ ":" ++ r.tag, full_base ++ ":latest"]
    else if r.is_rc then
      [full_base ++ ":" ++ r.tag, full_base ++ ":next"]
    else
      [full_base ++ ":" ++ r.branch, full_base ++ ":edge"])

-- ─── Build descriptor and configuration ─────────────────────────────────────

/-- One entry of the descriptor `variants` array.  `suffix` and
`dockerfile` are required keys in the source (`variant["suffix"]`,
`variant["dockerfile"]`); `target` and `contexts` are read with
`variant.get(..., default)` and so carry their defaults here.
`contexts` maps context name to producer suffix, in insertion order. -/
structure Variant where
  suffix : String
  dockerfile : String
  target : String := ""
  contexts : List (String × String) := []
deriving Repr, DecidableEq

/-- The descriptor `base` object: `{"dockerfile": ...}` (required key). -/
structure BaseSpec where
  dockerfile : String
deriving Repr, DecidableEq

/-- Parsed shape of a present `.oci-build.json`.  Every field is optional
here because the JSON object may omit it; `load` supplies the defaults and
raises `KeyError` where the source uses a required lookup. -/
structure RawDescriptor where
  registry : Option String := none
  image_name : Option String := none
  platforms : Option (List String) := none
  work_dir : Option String := none
  variants : Option (List Variant) := none
  base : Option BaseSpec := none
deriving Repr, DecidableEq

/-- Build configuration after loading and override merging. -/
structure BuildConfig where
  registry : String
  image_name : String
  platforms : List String
  work_dir : String
  variants : List Variant
  base : Option BaseSpec := none
deriving Repr, DecidableEq

/-- Model of the f-string joining registry and image name with a slash. -/
def BuildConfig.image_base (c : BuildConfig) : String :=
  c.registry ++ "/" ++ c.image_name

/-- Model of `len(platforms) > 1`. -/
def BuildConfig.is_multi_platform (c : BuildConfig) : Bool :=
  decide (c.platforms.length > 1)

/-- Model of `base is not None`. -/
def BuildConfig.has_base (c : BuildConfig) : Bool := c.base.isSome

/-- Model of `_gitolite_option`: the raw `git config gitolite-options.<key>` output
(`none` when the key is unset and the command fails) with `.strip()`
applied to a present value. -/
def gitoliteOption (configValue : Option String) : Option String :=
  configValue.map strTrim

/-- Python `opt or fallback` where `opt` is `None` or a string: the
fallback is evaluated only when `opt` is `None` or empty.  The fallback is
a required-key lookup, so it may raise `KeyError`. -/
def pyOrKey (opt : Option String) (required : Option String) (key : String) :
    Except PyErr String :=
  match opt with
  | some s =>
    if s = "" then
      match required with
      | some v => Except.ok v
      | none => Except.error (PyErr.keyError key)
    else Except.ok s
  | none =>
    match required with
    | some v => Except.ok v
    | none => Except.error (PyErr.keyError key)

/-- Model of `BuildConfig.load`, given the repository name, the result of
`git show rev:.oci-build.json` (already JSON-decoded; `none` when the git
command fails because the file is absent at that revision) and the two
gitolite per-repo option values.  Absence of the descriptor is answered
with `Except.ok none` — it is not an error. -/
def BuildConfig.load (repoName : String) (showResult : Option RawDescriptor)
    (optRegistry optImageName : Option String) :
    Except PyErr (Option BuildConfig) :=
  match showResult with
  | none => Except.ok none
  | some raw =>
    match pyOrKey (gitoliteOption optRegistry) raw.registry "registry" with
    | Except.error e => Except.error e
    | Except.ok registry =>
      let image_name :=
        match gitoliteOption optImageName with
        | some s => if s = "" then raw.image_name.getD repoName else s
        | none => raw.image_name.getD repoName
      Except.ok (some {
        registry := registry
        image_name := image_name
        platforms := raw.platforms.getD ["linux/amd64"]
        work_dir := raw.work_dir.getD ("/opt/builds/" ++ repoName ++ "-checkout")
        variants := raw.variants.getD [{ suffix := "", dockerfile := "Dockerfile", target := "" }]
        base := raw.base })

-- ─── BuildResult ────────────────────────────────────────────────────────────

/-- Outcome of a single variant build. -/
structure BuildResult where
  variant : String
  tags : List String
  success : Bool
  error : String := ""
deriving Repr, DecidableEq

/-- Rendering of `str(CalledProcessError)` used in failure results
(the exact text is irrelevant to the orchestration logic). -/
def errStr (args : List String) : String :=
  "Command " ++ joinSep " " args ++ " returned non-zero exit status."

-- ─── Podman interface (trace + oracle) ──────────────────────────────────────

/-- Observable events of a run: one per `podman` invocation, plus the
final per-variant status table when it is printed. -/
inductive Ev where
  | podman (args : List String)
  | summary (results : List BuildResult)
deriving Repr, DecidableEq

/-- Mutable state of one hook invocation: the ordered list of observable
events and the accumulated `results` list. -/
structure St where
  trace : List Ev
  results : List BuildResult
deriving Repr, DecidableEq

/-- Model of `podman(*args)`: record the invocation, then succeed or raise
`CalledProcessError` as the external engine (the oracle `ok`) decides. -/
def podmanRun (ok : List String → Bool) (args : List String) (s : St) :
    Except PyErr Unit × St :=
  let s' : St := { s with trace := s.trace ++ [Ev.podman args] }
  if ok args then (Except.ok (), s') else
    (Except.error (PyErr.calledProcessError args), s')

/-- Flags `--build-arg KEY=VAL`, in dict insertion order. -/
def argFlags (bargs : List (String × String)) : List String :=
  bargs.foldr (fun kv acc => ["--build-arg", kv.1 ++ "=" ++ kv.2] ++ acc) []

/-- Flag `--target`, emitted when the target string is truthy (non-empty). -/
def targetFlags (target : String) : List String :=
  if target = "" then [] else ["--target", target]

/-- Model of `build_context_args`: `--build-context name=container-image://image`
flags, in dict insertion order. -/
def build_context_args (ctxs : List (String × String)) : List String :=
  ctxs.foldr
    (fun kv acc => ["--build-context", kv.1 ++ "=container-image://" ++ kv.2] ++ acc) []

/-- Model of `if build_contexts:` — flags only when the dict is present and
non-empty (Python truthiness on `None` and `{}`). -/
def optCtxFlags (ctxs : Option (List (String × String))) : List String :=
  match ctxs with
  | none => []
  | some cs => if cs = [] then [] else build_context_args cs

/-- Flags `--tag t`, one pair per requested tag. -/
def tagFlags (tags : List String) : List String :=
  tags.foldr (fun t acc => ["--tag", t] ++ acc) []

/-- Model of `read_build_args`: always `COMMIT_HASH`; `VERSION` only when
`package.json` exists and declares a truthy version (the write of the
commit-hash stamp file is a filesystem effect outside the model). -/
def read_build_args (pkgVersion : Option String) (shortSha : String) :
    List (String × String) :=
  [("COMMIT_HASH", shortSha)] ++
    (match pkgVersion with
     | some v => if v = "" then [] else [("VERSION", v)]
     | none => [])

-- ─── Engine: single-platform build ──────────────────────────────────────────

/-- The argument list of the single-platform `podman build` invocation.
`platforms[0]` raises `IndexError` on an empty list in Python; the
descriptor default makes the list non-empty, modelled with `headD`. -/
def singleBuildCmd (cfg : BuildConfig) (workDir dockerfile target : String)
    (tags : List String) (bargs : List (String × String))
    (ctxs : Option (List (String × String))) : List String :=
  ["build", "--file", dockerfile, "--platform", cfg.platforms.headD ""] ++
    argFlags bargs ++ targetFlags target ++ optCtxFlags ctxs ++
    tagFlags tags ++ [workDir]

/-- Run `podman push t` for each tag in order, stopping at the first failure. -/
def pushTags (ok : List String → Bool) (tags : List String) (s : St) :
    Except PyErr Unit × St :=
  match tags with
  | [] => (Except.ok (), s)
  | t :: rest =>
    match podmanRun ok ["push", t] s with
    | (Except.ok _, s') => pushTags ok rest s'
    | (Except.error e, s') => (Except.error e, s')

/-- Model of `build_single_platform`: one build tagged with all requested tags,
then one push per tag. -/
def build_single_platform (ok : List String → Bool) (cfg : BuildConfig)
    (workDir dockerfile target : String) (tags : List String)
    (bargs : List (String × String)) (ctxs : Option (List (String × String)))
    (s : St) : Except PyErr Unit × St :=
  match podmanRun ok (singleBuildCmd cfg workDir dockerfile target tags bargs ctxs) s with
  | (Except.ok _, s') => pushTags ok tags s'
  | (Except.error e, s') => (Except.error e, s')

-- ─── Engine: multi-platform build ───────────────────────────────────────────

/-- The manifest list is named after the first tag (`tags[0]`). -/
def manifestName (tags : List String) : String := tags.headD ""

/-- The flag portion shared by every per-platform build invocation. -/
def multiBuildCmd (dockerfile target manifest : String)
    (bargs : List (String × String)) (ctxs : Option (List (String × String))) :
    List String :=
  ["build", "--file", dockerfile, "--manifest", manifest] ++
    argFlags bargs ++ targetFlags target ++ optCtxFlags ctxs

/-- One sequential build per platform into the shared manifest. -/
def platformLoop (ok : List String → Bool) (cmd : List String)
    (workDir : String) (platforms : List String) (s : St) :
    Except PyErr Unit × St :=
  match platforms with
  | [] => (Except.ok (), s)
  | p :: rest =>
    match podmanRun ok (cmd ++ ["--platform", p, workDir]) s with
    | (Except.ok _, s') => platformLoop ok cmd workDir rest s'
    | (Except.error e, s') => (Except.error e, s')

/-- One iteration of the tag loop: alias the manifest under the tag
(when it is not the manifest name itself), then push it as a manifest. -/
def tagPushStep (ok : List String → Bool) (manifest t : String) (s : St) :
    Except PyErr Unit × St :=
  if t ≠ manifest then
    match podmanRun ok ["tag", manifest, t] s with
    | (Except.ok _, s') =>
      podmanRun ok ["manifest", "push", "--all", t, "docker://" ++ t] s'
    | (Except.error e, s') => (Except.error e, s')
  else
    podmanRun ok ["manifest", "push", "--all", t, "docker://" ++ t] s

/-- For each tag in order: run `tagPushStep`, stopping at the first
failure. -/
def tagPushLoop (ok : List String → Bool) (manifest : String)
    (tags : List String) (s : St) : Except PyErr Unit × St :=
  match tags with
  | [] => (Except.ok (), s)
  | t :: rest =>
    match tagPushStep ok manifest t s with
    | (Except.ok _, s') => tagPushLoop ok manifest rest s'
    | (Except.error e, s') => (Except.error e, s')

/-- The protected region of `build_multi_platform` (the `try` body): one
sequential build per platform into the manifest, then alias and push
every tag. -/
def multiBody (ok : List String → Bool) (cfg : BuildConfig)
    (workDir : String) (cmd : List String) (manifest : String)
    (tags : List String) (s : St) : Except PyErr Unit × St :=
  match platformLoop ok cmd workDir cfg.platforms s with
  | (Except.ok _, s₂) => tagPushLoop ok manifest tags s₂
  | (Except.error e, s₂) => (Except.error e, s₂)

/-- Model of `build_multi_platform`: create the manifest list named after the first
tag, build once per platform into it, alias and push every tag, and
unconditionally remove the local manifest list afterward (`try/finally`);
an exception raised by the removal itself replaces the in-flight result,
exactly as a Python `finally` does. -/
def build_multi_platform (ok : List String → Bool) (cfg : BuildConfig)
    (workDir dockerfile target : String) (tags : List String)
    (bargs : List (String × String)) (ctxs : Option (List (String × String)))
    (s : St) : Except PyErr Unit × St :=
  match podmanRun ok ["manifest", "create", manifestName tags] s with
  | (Except.error e, s') => (Except.error e, s')
  | (Except.ok _, s') =>
    match multiBody ok cfg workDir
        (multiBuildCmd dockerfile target (manifestName tags) bargs ctxs)
        (manifestName tags) tags s' with
    | (r, s₂) =>
      match podmanRun ok ["manifest", "rm", manifestName tags] s₂ with
      | (Except.ok _, s₃) => (r, s₃)
      | (Except.error e, s₃) => (Except.error e, s₃)

-- ─── Base image and context resolution ──────────────────────────────────────

/-- Argument list of the base-image build. -/
def baseBuildCmd (cfg : BuildConfig) (workDir shortSha dockerfile : String) :
    List String :=
  ["build", "--file", dockerfile, "--platform", cfg.platforms.headD "",
   "--tag", "ots-base:" ++ shortSha, workDir]

/-- Model of `build_base`: build the shared base image (local only, never pushed)
under the name `ots-base:{short_sha}` and return that local name. -/
def build_base (ok : List String → Bool) (cfg : BuildConfig)
    (workDir shortSha dockerfile : String) (s : St) :
    Except PyErr String × St :=
  match podmanRun ok (baseBuildCmd cfg workDir shortSha dockerfile) s with
  | (Except.ok _, s') => (Except.ok ("ots-base:" ++ shortSha), s')
  | (Except.error e, s') => (Except.error e, s')

/-- Python dict assignment `d[k] = v`: an existing key keeps its position
and gets the new value; a new key is appended. -/
def dictInsert (d : List (String × String)) (k v : String) :
    List (String × String) :=
  if (d.lookup k).isSome then
    d.map (fun kv => if kv.1 = k then (k, v) else kv)
  else d ++ [(k, v)]

/-- Loop of `resolve_contexts` over the declared `(context_name,
producer_suffix)` pairs: each producer suffix must already be in the
built-image map, else a `RuntimeError` naming the ordering violation. -/
def resolveLoop (suffix : String) (declared : List (String × String))
    (ctxs built : List (String × String)) :
    Except PyErr (List (String × String)) :=
  match declared with
  | [] => Except.ok ctxs
  | (name, dep) :: rest =>
    match built.lookup dep with
    | none =>
      Except.error (PyErr.runtimeError
        ("Variant " ++ suffix ++ " depends on context " ++ name ++
         " (suffix " ++ dep ++ ") which has not been built yet. " ++
         "Check variant ordering in .oci-build.json."))
    | some img => resolveLoop suffix rest (dictInsert ctxs name img) built

/-- Model of `resolve_contexts`: inject the base under the name "base" when a base
was built, then resolve every declared context against the built-image
map; `none` when no contexts are needed (legacy mode, empty dict). -/
def resolve_contexts (variant : Variant) (baseImage : Option String)
    (built : List (String × String)) :
    Except PyErr (Option (List (String × String))) :=
  let init :=
    match baseImage with
    | some b => [("base", b)]
    | none => []
  match resolveLoop variant.suffix variant.contexts init built with
  | Except.error e => Except.error e
  | Except.ok ctxs => Except.ok (if ctxs = [] then none else some ctxs)

-- ─── build_variant ──────────────────────────────────────────────────────────

/-- Model of `suffix or "main"`: the display label of a variant. -/
def variantLabel (suffix : String) : String :=
  if suffix = "" then "main" else suffix

/-- Dispatch of `build_variant` to the single- or multi-platform engine,
with the tags computed from the ref and the build args from the tree. -/
def variantEngine (ok : List String → Bool) (cfg : BuildConfig)
    (ref : PushRef) (workDir : String) (variant : Variant)
    (ctxs : Option (List (String × String))) (pkgVersion : Option String)
    (s : St) : Except PyErr Unit × St :=
  if cfg.is_multi_platform then
    build_multi_platform ok cfg workDir variant.dockerfile variant.target
      (ref.image_tags cfg.image_base variant.suffix)
      (read_build_args pkgVersion ref.short_sha) ctxs s
  else
    build_single_platform ok cfg workDir variant.dockerfile variant.target
      (ref.image_tags cfg.image_base variant.suffix)
      (read_build_args pkgVersion ref.short_sha) ctxs s

/-- Model of `build_variant`: compute the tags, collect build args, dispatch to the
single- or multi-platform engine, and report a successful `BuildResult`. -/
def build_variant (ok : List String → Bool) (cfg : BuildConfig)
    (ref : PushRef) (workDir : String) (variant : Variant)
    (ctxs : Option (List (String × String))) (pkgVersion : Option String)
    (s : St) : Except PyErr BuildResult × St :=
  match variantEngine ok cfg ref workDir variant ctxs pkgVersion s with
  | (Except.ok _, s') =>
    (Except.ok { variant := variantLabel variant.suffix,
                 tags := ref.image_tags cfg.image_base variant.suffix,
                 success := true }, s')
  | (Except.error e, s') => (Except.error e, s')

-- ─── Orchestration of one ref ───────────────────────────────────────────────

/-- The variant loop of `main`: for each variant in declared order,
resolve contexts (a `RuntimeError` propagates — the `except` clause
catches only `CalledProcessError`), build, record the result and the
first published tag; on a `CalledProcessError` append a failure result
and raise `SystemExit 1`, aborting the remaining variants. -/
def variantsLoop (ok : List String → Bool) (cfg : BuildConfig)
    (ref : PushRef) (pkgVersion : Option String) (baseImage : Option String)
    (built : List (String × String)) (variants : List Variant) (s : St) :
    Except PyErr Unit × St :=
  match variants with
  | [] => (Except.ok (), s)
  | v :: rest =>
    match resolve_contexts v baseImage built with
    | Except.error e => (Except.error e, s)
    | Except.ok ctxs =>
      match build_variant ok cfg ref cfg.work_dir v ctxs pkgVersion s with
      | (Except.ok result, s') =>
        variantsLoop ok cfg ref pkgVersion baseImage
          (dictInsert built v.suffix (result.tags.headD "")) rest
          { s' with results := s'.results ++ [result] }
      | (Except.error (PyErr.calledProcessError c), s') =>
        (Except.error (PyErr.systemExit 1),
         { s' with results := s'.results ++
             [{ variant := variantLabel v.suffix, tags := [],
                success := false, error := errStr c }] })
      | (Except.error e, s') => (Except.error e, s')

/-- The body of the per-ref `try` block: build the base when configured
(on base failure append a failure result and raise `SystemExit 1`), then
run the variant loop.  Also returns the local base-image name when one
was built, for the `finally` cleanup. -/
def processRefBody (ok : List String → Bool) (cfg : BuildConfig)
    (ref : PushRef) (pkgVersion : Option String) (s : St) :
    (Except PyErr Unit × St) × Option String :=
  match cfg.base with
  | none => (variantsLoop ok cfg ref pkgVersion none [] cfg.variants s, none)
  | some b =>
    match build_base ok cfg cfg.work_dir ref.short_sha b.dockerfile s with
    | (Except.ok baseTag, s') =>
      (variantsLoop ok cfg ref pkgVersion (some baseTag) [] cfg.variants s', some baseTag)
    | (Except.error (PyErr.calledProcessError c), s') =>
      ((Except.error (PyErr.systemExit 1),
        { s' with results := s'.results ++
            [{ variant := "base", tags := [], success := false, error := errStr c }] }),
       none)
    | (Except.error e, s') => ((Except.error e, s'), none)

/-- The full per-ref orchestration, `try` body plus `finally`: when a base
image was built, attempt `podman rmi` on it exactly once regardless of
how the body ended; a `CalledProcessError` from the removal is caught and
only logged, so the body result stands unchanged. -/
def processRef (ok : List String → Bool) (cfg : BuildConfig) (ref : PushRef)
    (pkgVersion : Option String) (s : St) : Except PyErr Unit × St :=
  match processRefBody ok cfg ref pkgVersion s with
  | ((r, s'), none) => (r, s')
  | ((r, s'), some baseImage) => (r, (podmanRun ok ["rmi", baseImage] s').2)

-- ─── Hook entrypoint ────────────────────────────────────────────────────────

/-- The external inputs attached to one stdin line: the line itself, the
`git show` result for `.oci-build.json` at the pushed revision, and the
`package.json` version the checkout would expose. -/
structure RefInput where
  line : String
  showResult : Option RawDescriptor
  pkgVersion : Option String
deriving Repr

/-- The stdin loop of `main`: parse each line (skipping lines without
exactly three tokens), skip deletions, skip refs whose revision has no
descriptor, and otherwise run the per-ref orchestration.  Any uncaught
exception (including `SystemExit`) stops the loop immediately. -/
def mainLoop (ok : List String → Bool) (repoName : String)
    (optRegistry optImageName : Option String) (inputs : List RefInput)
    (s : St) : Except PyErr Unit × St :=
  match inputs with
  | [] => (Except.ok (), s)
  | inp :: rest =>
    match pySplit inp.line with
    | [a, b, c] =>
      let ref : PushRef := { old_rev := a, new_rev := b, refname := c }
      if ref.is_delete then mainLoop ok repoName optRegistry optImageName rest s
      else
        match BuildConfig.load repoName inp.showResult optRegistry optImageName with
        | Except.error e => (Except.error e, s)
        | Except.ok none => mainLoop ok repoName optRegistry optImageName rest s
        | Except.ok (some cfg) =>
          match processRef ok cfg ref inp.pkgVersion s with
          | (Except.ok _, s') => mainLoop ok repoName optRegistry optImageName rest s'
          | (Except.error e, s') => (Except.error e, s')
    | _ => mainLoop ok repoName optRegistry optImageName rest s

/-- The whole hook invocation: run the stdin loop from the empty state;
on normal completion print the per-variant status table when any results
were accumulated; map the ending to the interpreter exit status. -/
def mainRun (ok : List String → Bool) (repoName : String)
    (optRegistry optImageName : Option String) (inputs : List RefInput) :
    Nat × St :=
  match mainLoop ok repoName optRegistry optImageName inputs { trace := [], results := [] } with
  | (Except.ok _, s) =>
    if s.results = [] then (0, s)
    else (0, { s with trace := s.trace ++ [Ev.summary s.results] })
  | (Except.error e, s) => (processExitCode (Except.error e), s)

-- ─── Scenario configurations and concrete fixtures ──────────────────────────

/-- The two-variant dependency scenario: variant `B` declares one build
context `x ↦ A.suffix`, single platform, optional shared base. -/
def cfgAB (reg img wd sA dfA sB dfB x : String) (base : Option BaseSpec) :
    BuildConfig :=
  { registry := reg, image_name := img, platforms := ["linux/amd64"],
    work_dir := wd,
    variants := [{ suffix := sA, dockerfile := dfA, target := "" },
                 { suffix := sB, dockerfile := dfB, target := "",
                   contexts := [(x, sA)] }],
    base := base }

/-- A concrete ref: a push of branch `main` at a fixed commit. -/
def refMain : PushRef :=
  { old_rev := "1111111111111111111111111111111111111111",
    new_rev := "abc1234def5678abc1234def5678abc1234def56",
    refname := "refs/heads/main" }

/-- A concrete single-platform configuration with a shared base and one
primary variant. -/
def cfgBase : BuildConfig :=
  { registry := "r.example.com", image_name := "app",
    platforms := ["linux/amd64"],
    work_dir := "/opt/builds/myrepo-checkout",
    variants := [{ suffix := "", dockerfile := "Dockerfile", target := "" }],
    base := some { dockerfile := "docker/base.dockerfile" } }

/-- An engine oracle on which only the base-image build succeeds. -/
def okOnlyBase : List String → Bool := fun args =>
  args == baseBuildCmd cfgBase cfgBase.work_dir refMain.short_sha
    "docker/base.dockerfile"

/-- The forward-reference scenario: the second variant declares a context
whose producer suffix `d` matches no earlier variant. -/
def cfgFwd (reg img wd sA dfA sB dfB x d : String) : BuildConfig :=
  { registry := reg, image_name := img, platforms := ["linux/amd64"],
    work_dir := wd,
    variants := [{ suffix := sA, dockerfile := dfA, target := "" },
                 { suffix := sB, dockerfile := dfB, target := "",
                   contexts := [(x, d)] }],
    base := none }

/-- The multi-platform scenario configuration: two platforms, one
primary variant, no base. -/
def cfgMulti : BuildConfig :=
  { registry := "r.example.com", image_name := "app",
    platforms := ["linux/amd64", "linux/arm64"],
    work_dir := "/opt/builds/myrepo-checkout",
    variants := [{ suffix := "", dockerfile := "Dockerfile", target := "" }],
    base := none }

/-- An engine oracle on which everything succeeds except the local
manifest-list removal. -/
def okRmFails : List String → Bool := fun args =>
  !(args == ["manifest", "rm", "r.example.com/app:abc1234"])

/-- A minimal present descriptor: registry and image name only. -/
def rawSimple : RawDescriptor :=
  { registry := some "r.example.com", image_name := some "app" }

/-- A stdin line pushing branch main, with the descriptor present. -/
def inpMain : RefInput :=
  { line := "1111111111111111111111111111111111111111 abc1234def5678abc1234def5678abc1234def56 refs/heads/main",
    showResult := some rawSimple, pkgVersion := none }

/-- A second stdin line pushing branch dev at another commit, with the
descriptor present. -/
def inpDev : RefInput :=
  { line := "2222222222222222222222222222222222222222 fedcba9876543210fedcba9876543210fedcba98 refs/heads/dev",
    showResult := some rawSimple, pkgVersion := none }

-- ─── Trace observations ─────────────────────────────────────────────────────

/-- An event of the `try` body of the per-ref orchestration: always a
`podman` invocation and never an `rmi` one — local image removal happens
only in the `finally` cleanup — and never the summary table. -/
def bodyEv : Ev → Prop
  | Ev.podman args => args.head? ≠ some "rmi"
  | Ev.summary _ => False

/-- Whether an event is a `podman rmi` invocation (a base-image removal
attempt). -/
def isRmiEv : Ev → Bool
  | Ev.podman args => args.head? == some "rmi"
  | Ev.summary _ => false

/-- Whether an event is the printed per-variant status table. -/
def isSummaryEv : Ev → Bool
  | Ev.podman _ => false
  | Ev.summary _ => true

/-- Number of base-image removal attempts recorded in a trace. -/
def countRmi (l : List Ev) : Nat := (l.filter (fun e => isRmiEv e)).length

/-- Whether an event is a `podman build` invocation (any image build:
base, single-platform or per-platform). -/
def isBuildEv : Ev → Bool
  | Ev.podman args => args.head? == some "build"
  | Ev.summary _ => false

/-- The state `s'` extends the trace of `s` only with body events. -/
def TraceExt (s s' : St) : Prop :=
  ∃ Δ, s'.trace = s.trace ++ Δ ∧ ∀ e ∈ Δ, bodyEv e

-- ═══ Theorems ═══════════════════════════════════════════════════════════════

/-- The state returned by a `podman` invocation always records exactly
that invocation, whether it succeeded or failed. -/
theorem podmanRun_snd (ok : List String → Bool) (args : List String) (s : St) :
    (podmanRun ok args s).2 = { s with trace := s.trace ++ [Ev.podman args] } := by
  unfold podmanRun
  split <;> rfl

theorem TraceExt.rfl (s : St) : TraceExt s s :=
  ⟨[], by simp, by simp⟩

theorem TraceExt.trans {s₁ s₂ s₃ : St} (h₁ : TraceExt s₁ s₂) (h₂ : TraceExt s₂ s₃) :
    TraceExt s₁ s₃ := by
  obtain ⟨d₁, e₁, p₁⟩ := h₁
  obtain ⟨d₂, e₂, p₂⟩ := h₂
  refine ⟨d₁ ++ d₂, by simp [e₂, e₁], ?_⟩
  intro e he
  rcases List.mem_append.mp he with h | h
  · exact p₁ e h
  · exact p₂ e h

theorem podmanRun_ext (ok : List String → Bool) (args : List String) (s : St)
    (h : args.head? ≠ some "rmi") : TraceExt s (podmanRun ok args s).2 := by
  rw [podmanRun_snd]
  exact ⟨[Ev.podman args], by simp, by simpa [bodyEv] using h⟩

theorem pushTags_ext (ok : List String → Bool) (tags : List String) (s : St) :
    TraceExt s (pushTags ok tags s).2 := by
  induction tags generalizing s with
  | nil => exact TraceExt.rfl s
  | cons t rest ih =>
    unfold pushTags
    split
    case h_1 s' heq =>
      have h₁ : TraceExt s s' := by
        have := podmanRun_ext ok ["push", t] s (by simp)
        rwa [heq] at this
      exact h₁.trans (ih s')
    case h_2 e s' heq =>
      have := podmanRun_ext ok ["push", t] s (by simp)
      rwa [heq] at this

theorem build_single_platform_ext (ok : List String → Bool) (cfg : BuildConfig)
    (workDir dockerfile target : String) (tags : List String)
    (bargs : List (String × String)) (ctxs : Option (List (String × String)))
    (s : St) :
    TraceExt s (build_single_platform ok cfg workDir dockerfile target tags bargs ctxs s).2 := by
  unfold build_single_platform
  have hcmd : TraceExt s (podmanRun ok (singleBuildCmd cfg workDir dockerfile target tags bargs ctxs) s).2 :=
    podmanRun_ext _ _ _ (by simp [singleBuildCmd])
  split
  case h_1 s' heq =>
    have h₁ : TraceExt s s' := by rwa [heq] at hcmd
    exact h₁.trans (pushTags_ext ok tags s')
  case h_2 e s' heq =>
    rwa [heq] at hcmd

theorem platformLoop_ext (ok : List String → Bool) (cmd : List String)
    (workDir : String) (platforms : List String) (s : St)
    (hcmd : cmd.head? ≠ some "rmi") :
    TraceExt s (platformLoop ok cmd workDir platforms s).2 := by
  induction platforms generalizing s with
  | nil => exact TraceExt.rfl s
  | cons p rest ih =>
    unfold platformLoop
    have hext : TraceExt s (podmanRun ok (cmd ++ ["--platform", p, workDir]) s).2 := by
      refine podmanRun_ext _ _ _ ?_
      cases cmd with
      | nil => simp
      | cons a as => simpa using hcmd
    split
    case h_1 s' heq =>
      have h₁ : TraceExt s s' := by rwa [heq] at hext
      exact h₁.trans (ih s')
    case h_2 e s' heq =>
      rwa [heq] at hext

theorem tagPushStep_ext (ok : List String → Bool) (manifest t : String)
    (s : St) : TraceExt s (tagPushStep ok manifest t s).2 := by
  unfold tagPushStep
  split
  · split
    case h_1 s' heq =>
      have h₁ : TraceExt s s' := by
        have := podmanRun_ext ok ["tag", manifest, t] s (by simp)
        rwa [heq] at this
      exact h₁.trans (podmanRun_ext _ _ _ (by simp))
    case h_2 e s' heq =>
      have := podmanRun_ext ok ["tag", manifest, t] s (by simp)
      rwa [heq] at this
  · exact podmanRun_ext _ _ _ (by simp)

theorem tagPushLoop_ext (ok : List String → Bool) (manifest : String)
    (tags : List String) (s : St) :
    TraceExt s (tagPushLoop ok manifest tags s).2 := by
  induction tags generalizing s with
  | nil => exact TraceExt.rfl s
  | cons t rest ih =>
    unfold tagPushLoop
    have hstep := tagPushStep_ext ok manifest t s
    split
    case h_1 s' heq =>
      have h₁ : TraceExt s s' := by rwa [heq] at hstep
      exact h₁.trans (ih s')
    case h_2 e s' heq =>
      rwa [heq] at hstep

theorem multiBody_ext (ok : List String → Bool) (cfg : BuildConfig)
    (workDir : String) (cmd : List String) (manifest : String)
    (tags : List String) (s : St) (hcmd : cmd.head? ≠ some "rmi") :
    TraceExt s (multiBody ok cfg workDir cmd manifest tags s).2 := by
  unfold multiBody
  have hpl := platformLoop_ext ok cmd workDir cfg.platforms s hcmd
  split
  case h_1 s₂ heq =>
    have h₂ : TraceExt s s₂ := by rwa [heq] at hpl
    exact h₂.trans (tagPushLoop_ext ok manifest tags s₂)
  case h_2 e s₂ heq =>
    rwa [heq] at hpl

theorem build_multi_platform_ext (ok : List String → Bool) (cfg : BuildConfig)
    (workDir dockerfile target : String) (tags : List String)
    (bargs : List (String × String)) (ctxs : Option (List (String × String)))
    (s : St) :
    TraceExt s (build_multi_platform ok cfg workDir dockerfile target tags bargs ctxs s).2 := by
  unfold build_multi_platform
  have hcreate : TraceExt s (podmanRun ok ["manifest", "create", manifestName tags] s).2 :=
    podmanRun_ext _ _ _ (by simp)
  split
  case h_1 e s' heq =>
    rwa [heq] at hcreate
  case h_2 s' heq =>
    have h₁ : TraceExt s s' := by rwa [heq] at hcreate
    have hbody := multiBody_ext ok cfg workDir
      (multiBuildCmd dockerfile target (manifestName tags) bargs ctxs)
      (manifestName tags) tags s' (by simp [multiBuildCmd])
    rcases hmb : multiBody ok cfg workDir
      (multiBuildCmd dockerfile target (manifestName tags) bargs ctxs)
      (manifestName tags) tags s' with ⟨r, s₂⟩
    have h₂ : TraceExt s' s₂ := by rw [hmb] at hbody; exact hbody
    have h₃ : TraceExt s₂ (podmanRun ok ["manifest", "rm", manifestName tags] s₂).2 :=
      podmanRun_ext _ _ _ (by simp)
    have h₄ := (h₁.trans h₂).trans h₃
    split
    rename_i r2 s2 hpair
    injection hpair with hr hs
    subst hr
    subst hs
    split
    all_goals (rename_i heq₃; rwa [heq₃] at h₄)

theorem variantEngine_ext (ok : List String → Bool) (cfg : BuildConfig)
    (ref : PushRef) (workDir : String) (variant : Variant)
    (ctxs : Option (List (String × String))) (pkgVersion : Option String)
    (s : St) :
    TraceExt s (variantEngine ok cfg ref workDir variant ctxs pkgVersion s).2 := by
  unfold variantEngine
  split
  · exact build_multi_platform_ext ..
  · exact build_single_platform_ext ..

theorem build_variant_ext (ok : List String → Bool) (cfg : BuildConfig)
    (ref : PushRef) (workDir : String) (variant : Variant)
    (ctxs : Option (List (String × String))) (pkgVersion : Option String)
    (s : St) :
    TraceExt s (build_variant ok cfg ref workDir variant ctxs pkgVersion s).2 := by
  unfold build_variant
  have hb := variantEngine_ext ok cfg ref workDir variant ctxs pkgVersion s
  split
  case h_1 r s' heq => rwa [heq] at hb
  case h_2 e s' heq => rwa [heq] at hb

theorem variantsLoop_ext (ok : List String → Bool) (cfg : BuildConfig)
    (ref : PushRef) (pkgVersion : Option String) (baseImage : Option String)
    (built : List (String × String)) (variants : List Variant) (s : St) :
    TraceExt s (variantsLoop ok cfg ref pkgVersion baseImage built variants s).2 := by
  induction variants generalizing built s with
  | nil => exact TraceExt.rfl s
  | cons v rest ih =>
    unfold variantsLoop
    split
    case h_1 e heq => exact TraceExt.rfl s
    case h_2 ctxs heq =>
      have hv := build_variant_ext ok cfg ref cfg.work_dir v ctxs pkgVersion s
      split
      case h_1 result s' heq₂ =>
        have h₁ : TraceExt s s' := by rwa [heq₂] at hv
        have h₂ : TraceExt s' { s' with results := s'.results ++ [result] } :=
          ⟨[], by simp, by simp⟩
        exact (h₁.trans h₂).trans (ih _ _)
      case h_2 c s' heq₂ =>
        have h₁ : TraceExt s s' := by rwa [heq₂] at hv
        exact h₁.trans ⟨[], by simp, by simp⟩
      case h_3 e s' hne heq₂ =>
        rwa [heq₂] at hv

theorem build_base_ext (ok : List String → Bool) (cfg : BuildConfig)
    (workDir shortSha dockerfile : String) (s : St) :
    TraceExt s (build_base ok cfg workDir shortSha dockerfile s).2 := by
  unfold build_base
  have hb : TraceExt s (podmanRun ok (baseBuildCmd cfg workDir shortSha dockerfile) s).2 :=
    podmanRun_ext _ _ _ (by simp [baseBuildCmd])
  split
  case h_1 s' heq => rwa [heq] at hb
  case h_2 e s' heq => rwa [heq] at hb

theorem processRefBody_ext (ok : List String → Bool) (cfg : BuildConfig)
    (ref : PushRef) (pkgVersion : Option String) (s : St) :
    TraceExt s (processRefBody ok cfg ref pkgVersion s).1.2 := by
  unfold processRefBody
  split
  case h_1 heq => exact variantsLoop_ext ..
  case h_2 b heq =>
    have hb := build_base_ext ok cfg cfg.work_dir ref.short_sha b.dockerfile s
    split
    case h_1 baseTag s' heq₂ =>
      have h₁ : TraceExt s s' := by rwa [heq₂] at hb
      exact h₁.trans (variantsLoop_ext ..)
    case h_2 c s' heq₂ =>
      have h₁ : TraceExt s s' := by rwa [heq₂] at hb
      exact h₁.trans ⟨[], by simp, by simp⟩
    case h_3 e s' hne heq₂ =>
      rwa [heq₂] at hb

/-- C1: for every PushRef and image base/suffix, `image_tags` returns the
short-SHA tag first, then exactly two more tags determined by the ref
class — (version, latest) for a release tag (starts with "v", no "-rc"),
(version, next) for an RC tag (contains "-rc"), (sanitized branch, edge)
for a branch push — and the manifest list of a multi-platform build is
named by that first tag. -/
theorem C1_image_tags_spec (r : PushRef) (base suffix : String) :
    r.image_tags base suffix =
      ((base ++ suffix) ++ ":" ++ r.short_sha) ::
        (if r.is_tag && strStarts r.tag "v" && !(pyIn "-rc" r.tag) then
          [(base ++ suffix) ++ ":" ++ r.tag, (base ++ suffix) ++ ":latest"]
        else if r.is_tag && pyIn "-rc" r.tag then
          [(base ++ suffix) ++ ":" ++ r.tag, (base ++ suffix) ++ ":next"]
        else
          [(base ++ suffix) ++ ":" ++ r.branch, (base ++ suffix) ++ ":edge"])
    ∧ (r.image_tags base suffix).length = 3
    ∧ manifestName (r.image_tags base suffix) =
        (base ++ suffix) ++ ":" ++ r.short_sha := by
  refine ⟨?_, ?_, ?_⟩
  · unfold PushRef.image_tags PushRef.is_release PushRef.is_rc
    rfl
  · unfold PushRef.image_tags
    split
    · simp
    · split <;> simp
  · unfold manifestName PushRef.image_tags
    rfl

/-- C7: for every repository and pushed revision at which no build
descriptor exists (the `git show` of `.oci-build.json` fails),
`BuildConfig.load` answers the absent value `none` and raises nothing. -/
theorem C7_load_absent_is_none (repoName : String)
    (optRegistry optImageName : Option String) :
    BuildConfig.load repoName none optRegistry optImageName = Except.ok none :=
  rfl

/-- C9: for every PushRef, release and RC classification are mutually
exclusive, and a tag that starts with the version prefix "v" but contains
the RC marker "-rc" is classified as RC (not release), so its image tags
are the RC ones. -/
theorem C9_release_rc_exclusive (r : PushRef) (base suffix : String) :
    ¬(r.is_release = true ∧ r.is_rc = true) ∧
    ((r.is_tag = true ∧ strStarts r.tag "v" = true ∧ pyIn "-rc" r.tag = true) →
      r.is_rc = true ∧ r.is_release = false ∧
      r.image_tags base suffix =
        [(base ++ suffix) ++ ":" ++ r.short_sha,
         (base ++ suffix) ++ ":" ++ r.tag,
         (base ++ suffix) ++ ":next"]) := by
  constructor
  · rintro ⟨hrel, hrc⟩
    unfold PushRef.is_release at hrel
    unfold PushRef.is_rc at hrc
    simp only [Bool.and_eq_true, Bool.not_eq_true'] at hrel hrc
    exact absurd hrc.2 (by simp [hrel.2])
  · rintro ⟨h1, h2, h3⟩
    have hrc : r.is_rc = true := by simp [PushRef.is_rc, h1, h3]
    have hrel : r.is_release = false := by
      simp [PushRef.is_release, h3]
    refine ⟨hrc, hrel, ?_⟩
    simp [PushRef.image_tags, hrel, hrc]

/-- C9 witness: the tag `v1.0.0-rc1` starts with "v" and contains "-rc";
it is classified RC, not release, and gets the RC tag set. -/
theorem C9_witness :
    PushRef.is_rc ⟨"0ab", "fedcba9876", "refs/tags/v1.0.0-rc1"⟩ = true ∧
    PushRef.is_release ⟨"0ab", "fedcba9876", "refs/tags/v1.0.0-rc1"⟩ = false ∧
    PushRef.image_tags ⟨"0ab", "fedcba9876", "refs/tags/v1.0.0-rc1"⟩ "reg/app" "" =
      [("reg/app" ++ "") ++ ":" ++ PushRef.short_sha ⟨"0ab", "fedcba9876", "refs/tags/v1.0.0-rc1"⟩,
       ("reg/app" ++ "") ++ ":" ++ PushRef.tag ⟨"0ab", "fedcba9876", "refs/tags/v1.0.0-rc1"⟩,
       ("reg/app" ++ "") ++ ":next"] :=
  (C9_release_rc_exclusive ⟨"0ab", "fedcba9876", "refs/tags/v1.0.0-rc1"⟩ "reg/app" "").2
    (by refine ⟨rfl, rfl, by decide⟩)

/-- C10: when a base is configured and a variant declares a context
literally named "base" referencing producer suffix `sfx`, the declared
mapping overrides the injected base image: the resolved "base" context is
the producer variant's recorded (first published) tag `t`, not the local
base image. -/
theorem C10_declared_base_overrides (suffix dockerfile target sfx t b : String)
    (built : List (String × String)) (h : built.lookup sfx = some t) :
    resolve_contexts
      { suffix := suffix, dockerfile := dockerfile, target := target,
        contexts := [("base", sfx)] }
      (some b) built = Except.ok (some [("base", t)]) := by
  simp [resolve_contexts, resolveLoop, h, dictInsert]

/-- C10 witness: with the primary variant (suffix "") recorded under tag
`r/app:abc1234`, a declared context `base ↦ ""` resolves "base" to that
tag, overriding the injected local base image `ots-base:abc1234`. -/
theorem C10_witness :
    resolve_contexts
      { suffix := "-lite", dockerfile := "lite.dockerfile", target := "",
        contexts := [("base", "")] }
      (some "ots-base:abc1234") [("", "r/app:abc1234")] =
      Except.ok (some [("base", "r/app:abc1234")]) :=
  C10_declared_base_overrides "-lite" "lite.dockerfile" "" "" "r/app:abc1234"
    "ots-base:abc1234" [("", "r/app:abc1234")] (by decide)

/-- C8 counterexample: both overrides are present with the (stripped)
value "", yet the loaded registry and image name are the descriptor
values, not the override value — refuting "for every present option
value ... equal the override value". -/
theorem C8_counterexample :
    BuildConfig.load "myrepo"
      (some { registry := some "descr.example.com", image_name := some "descr/app" })
      (some "") (some "") =
      Except.ok (some
        { registry := "descr.example.com", image_name := "descr/app",
          platforms := ["linux/amd64"],
          work_dir := "/opt/builds/myrepo-checkout",
          variants := [{ suffix := "", dockerfile := "Dockerfile", target := "" }],
          base := none })
    ∧ ("descr.example.com" : String) ≠ "" ∧ ("descr/app" : String) ≠ "" :=
  ⟨rfl, by decide, by decide⟩

/-- C8 amended: a present override whose stripped value is non-empty
unconditionally replaces the descriptor value for registry and image
name (a present but empty override instead falls back to the
descriptor).  The descriptor may even lack `registry` entirely: the
override short-circuits the required lookup. -/
theorem C8_amended_overrides (repoName : String) (raw : RawDescriptor)
    (vReg vImg : String) (hr : strTrim vReg ≠ "") (hi : strTrim vImg ≠ "") :
    ∃ cfg, BuildConfig.load repoName (some raw) (some vReg) (some vImg) =
        Except.ok (some cfg) ∧ cfg.registry = strTrim vReg ∧ cfg.image_name = strTrim vImg := by
  refine ⟨{ registry := strTrim vReg, image_name := strTrim vImg,
            platforms := raw.platforms.getD ["linux/amd64"],
            work_dir := raw.work_dir.getD ("/opt/builds/" ++ repoName ++ "-checkout"),
            variants := raw.variants.getD
              [{ suffix := "", dockerfile := "Dockerfile", target := "" }],
            base := raw.base }, ?_, rfl, rfl⟩
  simp [BuildConfig.load, gitoliteOption, pyOrKey, hr, hi]

/-- C8 amended witness: concrete non-empty overrides win even over a
descriptor that has no `registry` key at all. -/
theorem C8_amended_witness :
    ∃ cfg, BuildConfig.load "myrepo" (some {}) (some "over.example.com") (some "team/app") =
        Except.ok (some cfg) ∧ cfg.registry = strTrim "over.example.com" ∧
        cfg.image_name = strTrim "team/app" :=
  C8_amended_overrides "myrepo" {} "over.example.com" "team/app" (by decide) (by decide)

theorem bodyEv_not_rmi {e : Ev} (h : bodyEv e) : isRmiEv e = false := by
  cases e with
  | podman args =>
    simp only [bodyEv] at h
    simp [isRmiEv, h]
  | summary rs => exact absurd h (by simp [bodyEv])

/-- Body events add no `rmi` invocation to the count. -/
theorem TraceExt.countRmi_eq {s s' : St} (h : TraceExt s s') :
    countRmi s'.trace = countRmi s.trace := by
  obtain ⟨d, he, hp⟩ := h
  have hnil : d.filter (fun e => isRmiEv e) = [] := by
    rw [List.filter_eq_nil_iff]
    intro e hmem
    simp [bodyEv_not_rmi (hp e hmem)]
  simp [countRmi, he, List.filter_append, hnil]

/-- The overall outcome of the per-ref orchestration is exactly the
outcome of its `try` body: the `finally` cleanup can never change it,
whether the base-image removal succeeds or fails. -/
theorem processRef_result_eq_body (ok : List String → Bool)
    (cfg : BuildConfig) (ref : PushRef) (pkgVersion : Option String) (s : St) :
    (processRef ok cfg ref pkgVersion s).1 =
      (processRefBody ok cfg ref pkgVersion s).1.1 := by
  unfold processRef
  rcases h : processRefBody ok cfg ref pkgVersion s with ⟨⟨r, s'⟩, bi⟩
  cases bi <;> simp

/-- When a base is configured and its build command succeeds, the body is
the variant loop run with the injected base image, and the base-image
name is returned for cleanup. -/
theorem processRefBody_base (ok : List String → Bool) (cfg : BuildConfig)
    (ref : PushRef) (pkgVersion : Option String) (s : St) (b : BaseSpec)
    (hb : cfg.base = some b)
    (hok : ok (baseBuildCmd cfg cfg.work_dir ref.short_sha b.dockerfile) = true) :
    processRefBody ok cfg ref pkgVersion s =
      (variantsLoop ok cfg ref pkgVersion (some ("ots-base:" ++ ref.short_sha))
        [] cfg.variants
        { s with trace := s.trace ++
            [Ev.podman (baseBuildCmd cfg cfg.work_dir ref.short_sha b.dockerfile)] },
       some ("ots-base:" ++ ref.short_sha)) := by
  unfold processRefBody
  rw [hb]
  unfold build_base podmanRun
  simp [hok]

/-- When the base was built and the first variant declares no contexts,
a failing single-platform build command makes the variant loop append a
failure result and raise `SystemExit 1`. -/
theorem variantsLoop_first_fail (ok : List String → Bool) (cfg : BuildConfig)
    (ref : PushRef) (pkgVersion : Option String) (bi : String) (v : Variant)
    (rest : List Variant) (s : St) (hctx : v.contexts = [])
    (hmp : cfg.is_multi_platform = false)
    (hfail : ok (singleBuildCmd cfg cfg.work_dir v.dockerfile v.target
        (ref.image_tags cfg.image_base v.suffix)
        (read_build_args pkgVersion ref.short_sha)
        (some [("base", bi)])) = false) :
    (variantsLoop ok cfg ref pkgVersion (some bi) [] (v :: rest) s).1 =
      Except.error (PyErr.systemExit 1) := by
  unfold variantsLoop resolve_contexts
  rw [hctx]
  unfold resolveLoop
  simp only [List.cons_ne_self, ite_false]
  unfold build_variant variantEngine build_single_platform podmanRun
  simp [hmp, hfail]

/-- C4: whenever a base image was built for a ref, its local removal is
attempted exactly once on every exit path of that ref's orchestration
(the trace gains exactly one `podman rmi`, whatever the oracle decides
for the variant builds, the context resolution, or the removal itself);
and in particular when the first variant's build then fails, the ref ends
with `SystemExit 1`, a non-zero process exit status, while the single
removal attempt still happens. -/
theorem C4_base_cleanup_exactly_once (ok : List String → Bool)
    (cfg : BuildConfig) (ref : PushRef) (pkgVersion : Option String) (s : St)
    (b : BaseSpec) (hb : cfg.base = some b)
    (hok : ok (baseBuildCmd cfg cfg.work_dir ref.short_sha b.dockerfile) = true) :
    countRmi (processRef ok cfg ref pkgVersion s).2.trace = countRmi s.trace + 1
    ∧ (∀ v rest, cfg.variants = v :: rest → v.contexts = [] →
        cfg.is_multi_platform = false →
        ok (singleBuildCmd cfg cfg.work_dir v.dockerfile v.target
              (ref.image_tags cfg.image_base v.suffix)
              (read_build_args pkgVersion ref.short_sha)
              (some [("base", "ots-base:" ++ ref.short_sha)])) = false →
        (processRef ok cfg ref pkgVersion s).1 = Except.error (PyErr.systemExit 1)
        ∧ processExitCode (processRef ok cfg ref pkgVersion s).1 = 1) := by
  have hpb := processRefBody_base ok cfg ref pkgVersion s b hb hok
  constructor
  · unfold processRef
    rw [hpb]
    rcases hvl : variantsLoop ok cfg ref pkgVersion
        (some ("ots-base:" ++ ref.short_sha)) [] cfg.variants
        { s with trace := s.trace ++
            [Ev.podman (baseBuildCmd cfg cfg.work_dir ref.short_sha b.dockerfile)] }
      with ⟨r, s₂⟩
    have hext := variantsLoop_ext ok cfg ref pkgVersion
        (some ("ots-base:" ++ ref.short_sha)) [] cfg.variants
        { s with trace := s.trace ++
            [Ev.podman (baseBuildCmd cfg cfg.work_dir ref.short_sha b.dockerfile)] }
    rw [hvl] at hext
    have h₂ : countRmi s₂.trace = countRmi s.trace := by
      rw [hext.countRmi_eq]
      have hbld : isRmiEv
          (Ev.podman (baseBuildCmd cfg cfg.work_dir ref.short_sha b.dockerfile)) = false := rfl
      simp [countRmi, List.filter_append, hbld]
    have hrmi : isRmiEv (Ev.podman ["rmi", "ots-base:" ++ ref.short_sha]) = true := rfl
    simp [podmanRun_snd, countRmi, List.filter_append, hrmi]
    exact h₂
  · intro v rest hv hctx hmp hfail
    have h1 := processRef_result_eq_body ok cfg ref pkgVersion s
    rw [hpb] at h1
    simp only at h1
    rw [hv] at h1
    have h2 := variantsLoop_first_fail ok cfg ref pkgVersion
      ("ots-base:" ++ ref.short_sha) v rest
      { s with trace := s.trace ++
          [Ev.podman (baseBuildCmd cfg cfg.work_dir ref.short_sha b.dockerfile)] }
      hctx hmp hfail
    rw [h2] at h1
    exact ⟨h1, by rw [h1]; rfl⟩

/-- Pushing tags with an all-succeeding engine appends one push event per
tag, in order. -/
theorem pushTags_all_ok (tags : List String) (s : St) :
    pushTags (fun _ => true) tags s =
      (Except.ok (), { s with trace := (s.trace ++
          tags.map (fun t => Ev.podman ["push", t])) }) := by
  induction tags generalizing s with
  | nil => simp [pushTags]
  | cons t rest ih =>
    unfold pushTags podmanRun
    simp [ih]

/-- A single-platform variant build with an all-succeeding engine: one
build event, then one push event per tag. -/
theorem build_single_all_ok (cfg : BuildConfig) (workDir df tgt : String)
    (tags : List String) (bargs : List (String × String))
    (ctxs : Option (List (String × String))) (s : St) :
    build_single_platform (fun _ => true) cfg workDir df tgt tags bargs ctxs s =
      (Except.ok (), { s with trace := (s.trace ++
          Ev.podman (singleBuildCmd cfg workDir df tgt tags bargs ctxs) ::
          tags.map (fun t => Ev.podman ["push", t])) }) := by
  unfold build_single_platform podmanRun
  simp [pushTags_all_ok]

/-- A variant build on a single-platform configuration with an
all-succeeding engine: returns the success result with the computed tags
and appends the build and push events. -/
theorem build_variant_all_ok (cfg : BuildConfig) (ref : PushRef)
    (workDir : String) (v : Variant) (ctxs : Option (List (String × String)))
    (pkgVersion : Option String) (s : St)
    (hmp : cfg.is_multi_platform = false) :
    build_variant (fun _ => true) cfg ref workDir v ctxs pkgVersion s =
      (Except.ok { variant := variantLabel v.suffix,
                   tags := ref.image_tags cfg.image_base v.suffix,
                   success := true },
       { s with trace := (s.trace ++
           Ev.podman (singleBuildCmd cfg workDir v.dockerfile v.target
              (ref.image_tags cfg.image_base v.suffix)
              (read_build_args pkgVersion ref.short_sha) ctxs) ::
           (ref.image_tags cfg.image_base v.suffix).map
             (fun t => Ev.podman ["push", t])) }) := by
  unfold build_variant variantEngine
  simp [hmp, build_single_all_ok]

/-- C4 witness: a concrete run — base configured, base build succeeds,
the only variant's build fails — with exactly one removal attempt and a
non-zero (1) exit status. -/
theorem C4_witness :
    countRmi (processRef okOnlyBase cfgBase refMain none
        { trace := [], results := [] }).2.trace =
      countRmi (St.mk [] []).trace + 1
    ∧ (processRef okOnlyBase cfgBase refMain none
        { trace := [], results := [] }).1 = Except.error (PyErr.systemExit 1)
    ∧ processExitCode (processRef okOnlyBase cfgBase refMain none
        { trace := [], results := [] }).1 = 1 := by
  have h := C4_base_cleanup_exactly_once okOnlyBase cfgBase refMain none
    { trace := [], results := [] } { dockerfile := "docker/base.dockerfile" }
    rfl (by decide)
  have h2 := h.2 { suffix := "", dockerfile := "Dockerfile", target := "" }
    [] rfl rfl rfl (by decide)
  exact ⟨h.1, h2.1, h2.2⟩

/-- C2: in a successful run (all-succeeding engine) of the scenario
`[A, B]` where `B` declares contexts `{x ↦ A.suffix}`, variant `A` is
built strictly before `B` (the trace is exactly: build A, push A's tags,
build B, push B's tags), the resolved build context `x` passed to `B`'s
build is `A`'s first published tag, that first tag is the short-SHA tag;
and when a base is configured, every variant additionally receives the
local base image under the context name "base" (with the base build
first and its removal last). -/
theorem C2_contexts_and_order (reg img wd sA dfA sB dfB x dfC : String)
    (ref : PushRef) (pkgV : Option String) (s : St) (hx : x ≠ "base") :
    (processRef (fun _ => true) (cfgAB reg img wd sA dfA sB dfB x none) ref pkgV s =
      (Except.ok (),
       { trace := (s.trace ++
           Ev.podman (singleBuildCmd (cfgAB reg img wd sA dfA sB dfB x none) wd dfA ""
               (ref.image_tags (reg ++ "/" ++ img) sA)
               (read_build_args pkgV ref.short_sha) none) ::
           ((ref.image_tags (reg ++ "/" ++ img) sA).map (fun t => Ev.podman ["push", t]) ++
            Ev.podman (singleBuildCmd (cfgAB reg img wd sA dfA sB dfB x none) wd dfB ""
               (ref.image_tags (reg ++ "/" ++ img) sB)
               (read_build_args pkgV ref.short_sha)
               (some [(x, (ref.image_tags (reg ++ "/" ++ img) sA).headD "")])) ::
            (ref.image_tags (reg ++ "/" ++ img) sB).map (fun t => Ev.podman ["push", t]))),
         results := (s.results ++
           [{ variant := variantLabel sA,
              tags := ref.image_tags (reg ++ "/" ++ img) sA, success := true },
            { variant := variantLabel sB,
              tags := ref.image_tags (reg ++ "/" ++ img) sB, success := true }]) }))
    ∧ (ref.image_tags (reg ++ "/" ++ img) sA).headD "" =
        ((reg ++ "/" ++ img) ++ sA) ++ ":" ++ ref.short_sha
    ∧ (processRef (fun _ => true)
        (cfgAB reg img wd sA dfA sB dfB x (some { dockerfile := dfC })) ref pkgV s =
      (Except.ok (),
       { trace := (s.trace ++
           Ev.podman (baseBuildCmd (cfgAB reg img wd sA dfA sB dfB x
               (some { dockerfile := dfC })) wd ref.short_sha dfC) ::
           Ev.podman (singleBuildCmd (cfgAB reg img wd sA dfA sB dfB x
               (some { dockerfile := dfC })) wd dfA ""
               (ref.image_tags (reg ++ "/" ++ img) sA)
               (read_build_args pkgV ref.short_sha)
               (some [("base", "ots-base:" ++ ref.short_sha)])) ::
           ((ref.image_tags (reg ++ "/" ++ img) sA).map (fun t => Ev.podman ["push", t]) ++
            Ev.podman (singleBuildCmd (cfgAB reg img wd sA dfA sB dfB x
               (some { dockerfile := dfC })) wd dfB ""
               (ref.image_tags (reg ++ "/" ++ img) sB)
               (read_build_args pkgV ref.short_sha)
               (some [("base", "ots-base:" ++ ref.short_sha),
                      (x, (ref.image_tags (reg ++ "/" ++ img) sA).headD "")])) ::
            ((ref.image_tags (reg ++ "/" ++ img) sB).map (fun t => Ev.podman ["push", t]) ++
             [Ev.podman ["rmi", "ots-base:" ++ ref.short_sha]]))),
         results := (s.results ++
           [{ variant := variantLabel sA,
              tags := ref.image_tags (reg ++ "/" ++ img) sA, success := true },
            { variant := variantLabel sB,
              tags := ref.image_tags (reg ++ "/" ++ img) sB, success := true }]) })) := by
  have hxb : (x == "base") = false := by
    exact beq_eq_false_iff_ne.mpr hx
  have hx' : "base" ≠ x := Ne.symm hx
  refine ⟨?_, ?_, ?_⟩
  · unfold processRef processRefBody
    simp only [cfgAB]
    simp [variantsLoop, resolve_contexts, resolveLoop, dictInsert,
      build_variant_all_ok, BuildConfig.image_base, BuildConfig.is_multi_platform,
      BuildConfig.work_dir]
  · simp [PushRef.image_tags]
  · unfold processRef processRefBody
    simp only [cfgAB]
    unfold build_base podmanRun
    simp only [baseBuildCmd]
    simp [variantsLoop, resolve_contexts, resolveLoop, dictInsert, hxb, hx, hx',
      build_variant_all_ok, BuildConfig.image_base, BuildConfig.is_multi_platform,
      podmanRun_snd]

/-- C2 witness: concrete instantiation of the dependency scenario (context
name "main", suffixes "" and "-lite"), with and without a base. -/
theorem C2_witness :
    (processRef (fun _ => true)
      (cfgAB "r.example.com" "app" "/opt/b" "" "Dockerfile" "-lite"
        "docker/variants/lite.dockerfile" "main" none) refMain none
      { trace := [], results := [] }).1 = Except.ok ()
    ∧ (processRef (fun _ => true)
      (cfgAB "r.example.com" "app" "/opt/b" "" "Dockerfile" "-lite"
        "docker/variants/lite.dockerfile" "main"
        (some { dockerfile := "docker/base.dockerfile" })) refMain none
      { trace := [], results := [] }).1 = Except.ok () := by
  have h := C2_contexts_and_order "r.example.com" "app" "/opt/b" "" "Dockerfile"
    "-lite" "docker/variants/lite.dockerfile" "main" "docker/base.dockerfile"
    refMain none { trace := [], results := [] } (by decide)
  exact ⟨by rw [h.1], by rw [h.2.2]⟩

/-- C3 counterexample: in the configuration `[A, B]` where `B` declares a
context whose suffix no variant has built, the RuntimeError is raised,
but a build (variant A) has already run before it — refuting "aborts the
ref before any build starts" as a universal statement. -/
theorem C3_counterexample :
    (processRef (fun _ => true)
      (cfgFwd "r.example.com" "app" "/opt/b" "" "Dockerfile" "-lite"
        "docker/variants/lite.dockerfile" "x" "zzz") refMain none
      { trace := [], results := [] }).1 =
      Except.error (PyErr.runtimeError
        ("Variant " ++ "-lite" ++ " depends on context " ++ "x" ++
         " (suffix " ++ "zzz" ++ ") which has not been built yet. " ++
         "Check variant ordering in .oci-build.json."))
    ∧ (processRef (fun _ => true)
      (cfgFwd "r.example.com" "app" "/opt/b" "" "Dockerfile" "-lite"
        "docker/variants/lite.dockerfile" "x" "zzz") refMain none
      { trace := [], results := [] }).2.trace.filter (fun e => isBuildEv e) ≠ [] := by
  constructor
  · rfl
  · decide

/-- C3 amended: a context referencing a suffix that is not a variant
built earlier raises the named ordering-violation RuntimeError (a
configuration error, never retried — the model is single-pass and the
error propagates past the CalledProcessError handler, aborting the ref);
the offending variant's own build never starts, but builds of earlier
variants have already run by then.  Only when the offending variant is
first — the configuration `[A(contexts:{x:d}), ...]` — is the error
raised before any build attempt, with the trace left untouched. -/
theorem C3_forward_reference (reg img wd sA dfA sB dfB x d : String)
    (ref : PushRef) (pkgV : Option String) (s : St) (hd : d ≠ sA) :
    (processRef (fun _ => true) (cfgFwd reg img wd sA dfA sB dfB x d) ref pkgV s =
      (Except.error (PyErr.runtimeError
         ("Variant " ++ sB ++ " depends on context " ++ x ++
          " (suffix " ++ d ++ ") which has not been built yet. " ++
          "Check variant ordering in .oci-build.json.")),
       { trace := (s.trace ++
           Ev.podman (singleBuildCmd (cfgFwd reg img wd sA dfA sB dfB x d) wd dfA ""
               (ref.image_tags (reg ++ "/" ++ img) sA)
               (read_build_args pkgV ref.short_sha) none) ::
           (ref.image_tags (reg ++ "/" ++ img) sA).map (fun t => Ev.podman ["push", t])),
         results := (s.results ++
           [{ variant := variantLabel sA,
              tags := ref.image_tags (reg ++ "/" ++ img) sA, success := true }]) }))
    ∧ (∀ (sA' dfA' : String) (rest : List Variant),
        processRef (fun _ => true)
          { registry := reg, image_name := img, platforms := ["linux/amd64"],
            work_dir := wd,
            variants := { suffix := sA', dockerfile := dfA', target := "",
                          contexts := [(x, d)] } :: rest,
            base := none } ref pkgV s =
          (Except.error (PyErr.runtimeError
             ("Variant " ++ sA' ++ " depends on context " ++ x ++
              " (suffix " ++ d ++ ") which has not been built yet. " ++
              "Check variant ordering in .oci-build.json.")), s)) := by
  have hds : (d == sA) = false := beq_eq_false_iff_ne.mpr hd
  constructor
  · unfold processRef processRefBody
    simp only [cfgFwd]
    simp [variantsLoop, resolve_contexts, resolveLoop, dictInsert, List.lookup,
      hds, build_variant_all_ok, BuildConfig.image_base,
      BuildConfig.is_multi_platform]
  · intro sA' dfA' rest
    unfold processRef processRefBody
    simp [variantsLoop, resolve_contexts, resolveLoop, List.lookup]

/-- C3 witness: concrete instantiation of the forward-reference scenario
(suffix "zzz" is not the earlier variant's suffix ""). -/
theorem C3_witness :
    processRef (fun _ => true)
      { registry := "r.example.com", image_name := "app",
        platforms := ["linux/amd64"], work_dir := "/opt/b",
        variants := [{ suffix := "", dockerfile := "Dockerfile", target := "",
                       contexts := [("x", "zzz")] }],
        base := none } refMain none { trace := [], results := [] } =
      (Except.error (PyErr.runtimeError
         ("Variant " ++ "" ++ " depends on context " ++ "x" ++
          " (suffix " ++ "zzz" ++ ") which has not been built yet. " ++
          "Check variant ordering in .oci-build.json.")),
       { trace := [], results := [] }) := by
  have h := C3_forward_reference "r.example.com" "app" "/opt/b" "-s6" "Dockerfile"
    "-lite" "docker/variants/lite.dockerfile" "x" "zzz" refMain none
    { trace := [], results := [] } (by decide)
  exact h.2 "" "Dockerfile" []

theorem bodyEv_not_summary {e : Ev} (h : bodyEv e) : isSummaryEv e = false := by
  cases e with
  | podman args => rfl
  | summary rs => exact absurd h (by simp [bodyEv])

/-- Body events never contain the status table. -/
theorem TraceExt.summary_filter_eq {s s' : St} (h : TraceExt s s') :
    (s'.trace.filter fun e => isSummaryEv e) =
      (s.trace.filter fun e => isSummaryEv e) := by
  obtain ⟨d, he, hp⟩ := h
  have hnil : d.filter (fun e => isSummaryEv e) = [] := by
    rw [List.filter_eq_nil_iff]
    intro e hm
    simp [bodyEv_not_summary (hp e hm)]
  simp [he, List.filter_append, hnil]

/-- The per-ref orchestration never prints the status table: the trace
gains only podman events. -/
theorem processRef_summary_free (ok : List String → Bool) (cfg : BuildConfig)
    (ref : PushRef) (pkgVersion : Option String) (s : St) :
    ((processRef ok cfg ref pkgVersion s).2.trace.filter fun e => isSummaryEv e) =
      (s.trace.filter fun e => isSummaryEv e) := by
  unfold processRef
  rcases h : processRefBody ok cfg ref pkgVersion s with ⟨⟨r, s'⟩, bi⟩
  have hext := processRefBody_ext ok cfg ref pkgVersion s
  rw [h] at hext
  cases bi with
  | none => simpa using hext.summary_filter_eq
  | some img =>
    simp only
    rw [podmanRun_snd]
    simp only at hext
    have hrm : (List.filter (fun e => isSummaryEv e) [Ev.podman ["rmi", img]]) = [] := rfl
    simp only [List.filter_append, hrm, List.append_nil]
    exact hext.summary_filter_eq

/-- C5 counterexample: a multi-platform run in which the build and every
push succeed but the local manifest-list removal fails: the cleanup
failure is escalated — the variant is recorded as failed with the
removal command as the error, and the invocation exits 1 — refuting
"cleanup failure never affects the process exit code". -/
theorem C5_counterexample :
    (processRef okRmFails cfgMulti refMain none { trace := [], results := [] }).1 =
      Except.error (PyErr.systemExit 1)
    ∧ processExitCode (processRef okRmFails cfgMulti refMain none
        { trace := [], results := [] }).1 = 1
    ∧ (processRef okRmFails cfgMulti refMain none
        { trace := [], results := [] }).2.results =
      [{ variant := "main", tags := [], success := false,
         error := errStr ["manifest", "rm", "r.example.com/app:abc1234"] }]
    ∧ (processRef okRmFails cfgMulti refMain none
        { trace := [], results := [] }).2.trace.getLast? =
      some (Ev.podman ["manifest", "rm", "r.example.com/app:abc1234"]) :=
  ⟨rfl, rfl, rfl, rfl⟩

/-- C5 amended: failure to remove the local base image is logged only —
the per-ref outcome equals the outcome of the protected body, whatever
the engine decides for the removal; the local manifest-list removal is
attempted unconditionally after a multi-platform build, as the last
engine event, on success or failure; but a manifest-list removal failure
is escalated: it is treated as a build failure and exits 1. -/
theorem C5_cleanup_semantics (ok : List String → Bool) (cfg : BuildConfig)
    (ref : PushRef) (pkgVersion : Option String) (s : St)
    (workDir dockerfile target : String) (tags : List String)
    (bargs : List (String × String)) (ctxs : Option (List (String × String)))
    (hcreate : ok ["manifest", "create", manifestName tags] = true) :
    (processRef ok cfg ref pkgVersion s).1 =
      (processRefBody ok cfg ref pkgVersion s).1.1
    ∧ (∃ t, (build_multi_platform ok cfg workDir dockerfile target tags
          bargs ctxs s).2.trace =
        t ++ [Ev.podman ["manifest", "rm", manifestName tags]])
    ∧ (processRef okRmFails cfgMulti refMain none
        { trace := [], results := [] }).1 = Except.error (PyErr.systemExit 1) := by
  refine ⟨processRef_result_eq_body ok cfg ref pkgVersion s, ?_, rfl⟩
  unfold build_multi_platform
  simp only [podmanRun, hcreate, if_true]
  rcases hmb : multiBody ok cfg workDir
      (multiBuildCmd dockerfile target (manifestName tags) bargs ctxs)
      (manifestName tags) tags
      { s with trace := s.trace ++ [Ev.podman ["manifest", "create", manifestName tags]] }
    with ⟨r, s₂⟩
  cases hok2 : ok ["manifest", "rm", manifestName tags] <;> simp [hok2]

/-- C5 witness: with an all-succeeding engine the multi-platform build
still ends by removing the local manifest list. -/
theorem C5_witness :
    ∃ t, (build_multi_platform (fun _ => true) cfgMulti
        "/opt/builds/myrepo-checkout" "Dockerfile" ""
        (refMain.image_tags "r.example.com/app" "")
        [("COMMIT_HASH", "abc1234")] none
        { trace := [], results := [] }).2.trace =
      t ++ [Ev.podman ["manifest", "rm",
        manifestName (refMain.image_tags "r.example.com/app" "")]] :=
  (C5_cleanup_semantics (fun _ => true) cfgMulti refMain none
    { trace := [], results := [] } "/opt/builds/myrepo-checkout" "Dockerfile" ""
    (refMain.image_tags "r.example.com/app" "")
    [("COMMIT_HASH", "abc1234")] none rfl).2.1

/-- C6 counterexample: two refs on stdin, both with the descriptor
present, and a first-variant build failure on the first ref.  The
invocation exits 1, but the second ref is never processed (the whole run
equals the run with the first line alone, and only one result exists)
and no status table is printed — refuting "subsequent refs are still
processed and a per-variant status table covering every result is
printed". -/
theorem C6_counterexample :
    (mainRun (fun _ => false) "myrepo" none none [inpMain, inpDev]).1 = 1
    ∧ mainRun (fun _ => false) "myrepo" none none [inpMain, inpDev] =
        mainRun (fun _ => false) "myrepo" none none [inpMain]
    ∧ ((mainRun (fun _ => false) "myrepo" none none
        [inpMain, inpDev]).2.trace.filter fun e => isSummaryEv e) = []
    ∧ (mainRun (fun _ => false) "myrepo" none none
        [inpMain, inpDev]).2.results.length = 1 :=
  ⟨rfl, rfl, rfl, rfl⟩

/-- C6 amended: when the per-ref orchestration of a stdin line ends with
an uncaught exception (in particular the `SystemExit 1` of a variant
build failure), the whole invocation stops there: remaining stdin lines
are never processed, the per-variant status table is not printed, and
the process exit status is that of the exception (non-zero). -/
theorem C6_failure_stops_invocation (ok : List String → Bool)
    (repoName : String) (optRegistry optImageName : Option String)
    (inp : RefInput) (rest : List RefInput) (a b c : String)
    (hsplit : pySplit inp.line = [a, b, c])
    (hdel : PushRef.is_delete { old_rev := a, new_rev := b, refname := c } = false)
    (cfg : BuildConfig)
    (hload : BuildConfig.load repoName inp.showResult optRegistry optImageName =
      Except.ok (some cfg))
    (e : PyErr) (s₁ : St)
    (hfail : processRef ok cfg { old_rev := a, new_rev := b, refname := c }
      inp.pkgVersion { trace := [], results := [] } = (Except.error e, s₁)) :
    mainRun ok repoName optRegistry optImageName (inp :: rest) =
      (processExitCode (Except.error e), s₁)
    ∧ (s₁.trace.filter fun ev => isSummaryEv ev) = []
    ∧ (e = PyErr.systemExit 1 →
        (mainRun ok repoName optRegistry optImageName (inp :: rest)).1 = 1) := by
  have hmain : mainRun ok repoName optRegistry optImageName (inp :: rest) =
      (processExitCode (Except.error e), s₁) := by
    unfold mainRun mainLoop
    rw [hsplit]
    simp only [hdel, Bool.false_eq_true, if_false]
    simp only [hload]
    simp only [hfail]
  refine ⟨hmain, ?_, ?_⟩
  · have h := processRef_summary_free ok cfg
      { old_rev := a, new_rev := b, refname := c } inp.pkgVersion
      { trace := [], results := [] }
    rw [hfail] at h
    simpa using h
  · intro he
    rw [hmain, he]
    rfl

/-- C6 witness: the concrete two-line invocation of the counterexample
scenario satisfies the amended statement, exiting 1. -/
theorem C6_witness :
    (mainRun (fun _ => false) "myrepo" none none [inpMain, inpDev]).1 = 1 := by
  have h := C6_failure_stops_invocation (fun _ => false) "myrepo" none none
    inpMain [inpDev]
    "1111111111111111111111111111111111111111"
    "abc1234def5678abc1234def5678abc1234def56"
    "refs/heads/main" rfl rfl
    { registry := "r.example.com", image_name := "app",
      platforms := ["linux/amd64"], work_dir := "/opt/builds/myrepo-checkout",
      variants := [{ suffix := "", dockerfile := "Dockerfile", target := "" }],
      base := none }
    rfl (PyErr.systemExit 1) _ rfl
  exact h.2.2 rfl
